import Mathlib

/-!
Shallow embedding of the spare-parts inventory application (`src/app.py`).

The program keeps two SQLite tables, `SpareParts` and `Transactions`, and
mutates them through five data-access functions: `fetch_parts`,
`fetch_transactions`, `insert_part`, `update_part`, `delete_part` and
`adjust_stock`.  We model the database state as two Lean lists plus the
AUTOINCREMENT counters, and each data-access function as a function on that
state.  Fallible operations return `Except DBError DB`; every Python
`ValueError` / `sqlite3.IntegrityError` raise site gets its own `DBError`
constructor.  SQLite specifics that matter to the claims are modelled
faithfully and noted at the definition they affect.
-/

namespace Inventory

/-- A row of the `SpareParts` table.  All text columns are modelled as
`String`: every write path of the program (`insert_part`, `update_part`)
supplies a string (defaulting to `""`), so `NULL` never reaches these
columns, and `COALESCE(x,'')` in queries is the identity. -/
structure Part where
  id : Nat
  part_number : String
  description : String
  machine_type : String
  supplier : String
  min_qty : Int
  current_qty : Int
  location : String
deriving Repr, DecidableEq

/-- A row of the `Transactions` table. -/
structure Txn where
  id : Nat
  part_id : Nat
  ts : String
  user : String
  action : String
  quantity : Int
  remarks : String
deriving Repr, DecidableEq

/-- Database state: the two tables plus the AUTOINCREMENT counters
(SQLite rowids start at 1). -/
structure DB where
  parts : List Part
  txns : List Txn
  next_part_id : Nat
  next_txn_id : Nat
deriving Repr, DecidableEq

/-- The state produced by `init_db`: both tables empty. -/
def DB.empty : DB := ⟨[], [], 1, 1⟩

/-- One constructor per raise site of the data-access layer:
`uniqueViolation` is the `sqlite3.IntegrityError` from the
`part_number TEXT UNIQUE` constraint; the three `ValueError`s are raised by
`adjust_stock` with the messages "Action must be IN or OUT",
"Part not found" and "Cannot go below zero stock".  The specification's
error taxonomy maps DuplicateKey to `uniqueViolation`, InvalidOperation to
`badAction`/`belowZero`, and NotFound to `partNotFound`. -/
inductive DBError where
  | uniqueViolation
  | badAction
  | partNotFound
  | belowZero
deriving Repr, DecidableEq

/-- Each data-access call runs inside `with conn:`, which commits on success
and rolls back on an exception, so the connection state after an operation is
the new state on success and the unchanged old state on error. -/
def DB.after (db : DB) (r : Except DBError DB) : DB :=
  match r with
  | .ok d => d
  | .error _ => db

/-- ASCII lower-casing of one character, as SQLite's `LIKE` applies to the
ASCII range. -/
def lowerAscii (c : Char) : Char :=
  if 'A' ≤ c ∧ c ≤ 'Z' then Char.ofNat (c.toNat + 32) else c

/-- `anySuffix g s` is true iff `g` holds of some suffix of `s`
(including `s` itself and `[]`). -/
def anySuffix (g : List Char → Bool) : List Char → Bool
  | [] => g []
  | c :: s => g (c :: s) || anySuffix g s

/-- SQLite `LIKE` pattern matching (no `ESCAPE` clause is used by the
program): `%` matches any sequence, `_` any single character, and other
characters match ASCII-case-insensitively. -/
def likeMatch : List Char → List Char → Bool
  | [], s => s.isEmpty
  | a :: ps, s =>
    if a = '%' then anySuffix (likeMatch ps) s
    else if a = '_' then
      match s with
      | [] => false
      | _ :: s' => likeMatch ps s'
    else
      match s with
      | [] => false
      | c :: s' => (lowerAscii a == lowerAscii c) && likeMatch ps s'

/-- `leadsWith q s` is true iff `q` is an initial segment of `s`. -/
def leadsWith : List Char → List Char → Bool
  | [], _ => true
  | _ :: _, [] => false
  | a :: l, c :: s => (a == c) && leadsWith l s

/-- `hasSub q s` is true iff `q` occurs in `s` as a contiguous substring. -/
def hasSub (q s : List Char) : Bool := anySuffix (leadsWith q) s

/-- `field LIKE '%' || search || '%'`, as built by `fetch_parts`
(`like = f"%{search}%"`). -/
def likeStr (search field : String) : Bool :=
  likeMatch ('%' :: (search.data ++ ['%'])) field.data

/-- The `WHERE` clause of `fetch_parts`: any of the four columns LIKE-matches
the search pattern.  `COALESCE` is the identity here (see `Part`). -/
def likeAny (search : String) (p : Part) : Bool :=
  likeStr search p.part_number || likeStr search p.description ||
    likeStr search p.machine_type || likeStr search p.supplier

/-- `ORDER BY part_number` comparison (SQLite BINARY collation is code-point
order, which is `String` order on these values). -/
def pnLE (a b : Part) : Prop := a.part_number ≤ b.part_number

instance : DecidableRel pnLE := fun a b =>
  inferInstanceAs (Decidable (a.part_number ≤ b.part_number))

instance : IsTotal Part pnLE := ⟨fun a b => le_total a.part_number b.part_number⟩

instance : IsTrans Part pnLE := ⟨fun _ _ _ h h' => le_trans h h'⟩

/-- `fetch_parts(conn, search)`: rows of `SpareParts` whose part number,
description, machine type or supplier LIKE-matches `%search%`, ordered by
part number ascending (equal keys in unspecified order, so any sort is a
faithful model). -/
def fetch_parts (db : DB) (search : String) : List Part :=
  List.insertionSort pnLE (db.parts.filter (likeAny search))

/-- `ORDER BY datetime(t.ts) DESC`: the program only ever stores
ISO-8601 timestamps (`datetime.now().isoformat(timespec="seconds")`), on
which `datetime` ordering coincides with string ordering, so we model the
sort key as the raw `ts` string, descending. -/
def tsGE (a b : String × Txn) : Prop := b.2.ts ≤ a.2.ts

instance : DecidableRel tsGE := fun a b =>
  inferInstanceAs (Decidable (b.2.ts ≤ a.2.ts))

instance : IsTotal (String × Txn) tsGE := ⟨fun a b => le_total b.2.ts a.2.ts⟩

instance : IsTrans (String × Txn) tsGE := ⟨fun _ _ _ h h' => le_trans h' h⟩

/-- `fetch_transactions(conn, limit)`: transactions inner-joined with their
part's number (`JOIN SpareParts s ON s.id = t.part_id` — a transaction whose
`part_id` matches no part row produces no output row), newest first, capped
at `limit`. -/
def fetch_transactions (db : DB) (limit : Nat) : List (String × Txn) :=
  (List.insertionSort tsGE
    (db.txns.filterMap fun t =>
      (db.parts.find? fun p => p.id == t.part_id).map fun p =>
        (p.part_number, t))).take limit

/-- `insert_part(conn, row)`: a plain `INSERT` into `SpareParts`.  The only
constraint SQLite checks is `part_number TEXT UNIQUE NOT NULL`; the bound
value is always a string (never NULL), and the empty string satisfies
`NOT NULL`, so the insert fails only on a duplicate part number.  No other
validation exists in `insert_part`. -/
def insert_part (db : DB) (part_number description machine_type supplier : String)
    (min_qty current_qty : Int) (location : String) : Except DBError DB :=
  if db.parts.any (fun p => p.part_number == part_number) then
    .error .uniqueViolation
  else
    .ok { db with
      parts := db.parts ++
        [{ id := db.next_part_id, part_number := part_number,
           description := description, machine_type := machine_type,
           supplier := supplier, min_qty := min_qty,
           current_qty := current_qty, location := location }],
      next_part_id := db.next_part_id + 1 }

/-- `update_part(conn, pid, row)`: `UPDATE SpareParts SET ... WHERE id=?`.
If no row has the given id the statement updates zero rows and succeeds;
if a row is updated, writing a part number held by a different row violates
the UNIQUE constraint (`sqlite3.IntegrityError`, rolled back). -/
def update_part (db : DB) (pid : Nat) (part_number description machine_type supplier : String)
    (min_qty current_qty : Int) (location : String) : Except DBError DB :=
  if db.parts.any (fun p => p.id == pid) then
    if db.parts.any (fun p => (p.id != pid) && (p.part_number == part_number)) then
      .error .uniqueViolation
    else
      .ok { db with
        parts := db.parts.map fun p =>
          if p.id == pid then
            { id := p.id, part_number := part_number,
              description := description, machine_type := machine_type,
              supplier := supplier, min_qty := min_qty,
              current_qty := current_qty, location := location }
          else p }
  else .ok db

/-- `delete_part(conn, pid)`: `DELETE FROM SpareParts WHERE id=?`.
SQLite enforces foreign-key constraints — including `ON DELETE CASCADE` —
only on connections that have run `PRAGMA foreign_keys=ON`; `get_conn` never
does, so the cascade declared in the schema is inert and the delete removes
only the part row, leaving any `Transactions` rows for that part in place. -/
def delete_part (db : DB) (pid : Nat) : DB :=
  { db with parts := db.parts.filter fun p => p.id != pid }

/-- `adjust_stock(conn, part_id, qty, action, user, remarks)`.  The Python
checks the action string first, then looks the part up, then rejects a
negative new quantity, then (in one transaction) updates the part's
`current_qty` and inserts one `Transactions` row.  `current = cur[0] or 0`
is the identity on integers (`0 or 0` is `0`), so it is modelled as the
stored value.  The timestamp `datetime.now()...` is an external input,
passed here as `ts`. -/
def adjust_stock (db : DB) (part_id : Nat) (qty : Int) (action : String)
    (user remarks ts : String) : Except DBError DB :=
  if action ≠ "IN" ∧ action ≠ "OUT" then .error .badAction
  else
    match db.parts.find? (fun p => p.id == part_id) with
    | none => .error .partNotFound
    | some p =>
      let current : Int := p.current_qty
      let new_qty : Int := if action = "IN" then current + qty else current - qty
      if new_qty < 0 then .error .belowZero
      else
        .ok { db with
          parts := db.parts.map fun r =>
            if r.id == part_id then { r with current_qty := new_qty } else r,
          txns := db.txns ++
            [{ id := db.next_txn_id, part_id := part_id, ts := ts,
               user := user, action := action, quantity := qty,
               remarks := remarks }],
          next_txn_id := db.next_txn_id + 1 }

/-- Look a part up by id (the `SELECT ... WHERE id=?` shape). -/
def findPart (db : DB) (pid : Nat) : Option Part :=
  db.parts.find? fun p => p.id == pid

/-! ### Concrete fixtures used to exercise the operations -/

/-- A part with id 1, stock 5, whose four searchable fields are all
lower-case "abc". -/
def exPart : Part := ⟨1, "abc", "abc", "abc", "abc", 2, 5, "loc"⟩

/-- A catalog holding just `exPart`, no transactions yet. -/
def exDB : DB := ⟨[exPart], [], 2, 1⟩

/-- `exDB` after a successful `adjust_stock` of OUT 2. -/
def exDB' : DB :=
  { parts := [{ exPart with current_qty := 3 }],
    txns := [{ id := 1, part_id := 1, ts := "t", user := "u", action := "OUT",
               quantity := 2, remarks := "r" }],
    next_part_id := 2, next_txn_id := 2 }

/-- A part whose ledger history is nonempty, for the delete claim. -/
def delPart : Part := ⟨1, "P1", "", "", "", 0, 5, ""⟩

/-- The one transaction referencing `delPart`. -/
def delTxn : Txn := ⟨1, 1, "2024-01-01T00:00:00", "u", "IN", 5, ""⟩

/-- A database holding `delPart` and its one transaction. -/
def delDB : DB := ⟨[delPart], [delTxn], 2, 2⟩

/-! ### Helper lemmas about the LIKE model -/

theorem anySuffix_eq (g₁ g₂ : List Char → Bool) (h : ∀ t, g₁ t = g₂ t)
    (s : List Char) : anySuffix g₁ s = anySuffix g₂ s := by
  have hg : g₁ = g₂ := funext h
  rw [hg]

theorem anySuffix_map (g : List Char → Bool) (f : Char → Char) (s : List Char) :
    anySuffix (fun t => g (t.map f)) s = anySuffix g (s.map f) := by
  induction s with
  | nil => rfl
  | cons c s ih => simp [anySuffix, ih]

theorem anySuffix_likeMatch_nil (t : List Char) :
    anySuffix (likeMatch []) t = true := by
  induction t with
  | nil => rfl
  | cons c t ih => simp [anySuffix, ih]

theorem anySuffix_leadsWith_nil (t : List Char) :
    anySuffix (leadsWith []) t = true := by
  induction t with
  | nil => rfl
  | cons c t ih => simp [anySuffix, ih, leadsWith]

/-- A wildcard-free pattern followed by `%` matches a string iff the pattern
is an ASCII-case-insensitive initial segment of the string. -/
theorem likeMatch_literal_pct (l : List Char) (hl : ∀ a ∈ l, a ≠ '%' ∧ a ≠ '_') :
    ∀ t, likeMatch (l ++ ['%']) t = leadsWith (l.map lowerAscii) (t.map lowerAscii) := by
  induction l with
  | nil =>
    intro t
    show likeMatch ['%'] t = leadsWith [] (t.map lowerAscii)
    rw [show likeMatch ['%'] t = anySuffix (likeMatch []) t from by simp [likeMatch]]
    rw [anySuffix_likeMatch_nil]
    rfl
  | cons a l ih =>
    intro t
    obtain ⟨ha1, ha2⟩ := hl a (List.mem_cons_self a l)
    have ih' := ih fun x hx => hl x (List.mem_cons_of_mem a hx)
    cases t with
    | nil => simp [likeMatch, ha1, ha2, leadsWith]
    | cons c t => simp [likeMatch, ha1, ha2, leadsWith, ih' t]

/-- For a search string containing no LIKE wildcard, the program's
`%search%` pattern match is exactly ASCII-case-insensitive contiguous
substring containment. -/
theorem likeStr_eq_hasSub (q : String) (hq : ∀ a ∈ q.data, a ≠ '%' ∧ a ≠ '_')
    (s : String) :
    likeStr q s = hasSub (q.data.map lowerAscii) (s.data.map lowerAscii) := by
  unfold likeStr hasSub
  rw [show likeMatch ('%' :: (q.data ++ ['%'])) s.data
      = anySuffix (likeMatch (q.data ++ ['%'])) s.data from by simp [likeMatch]]
  rw [anySuffix_eq _ _ (likeMatch_literal_pct q.data hq)]
  exact anySuffix_map _ lowerAscii s.data

theorem likeStr_empty (s : String) : likeStr "" s = true := by
  rw [likeStr_eq_hasSub "" (by simp) s]
  exact anySuffix_leadsWith_nil _

theorem likeAny_empty (p : Part) : likeAny "" p = true := by
  simp [likeAny, likeStr_empty]

/-! ### Helper lemmas about `adjust_stock` -/

theorem find?_map_setQty (l : List Part) (pid : Nat) (nq : Int) :
    (l.map fun x => if x.id == pid then { x with current_qty := nq } else x).find?
        (fun x => x.id == pid)
      = (l.find? fun x => x.id == pid).map fun x => { x with current_qty := nq } := by
  induction l with
  | nil => rfl
  | cons x l ih =>
    simp only [List.map_cons]
    by_cases hx : (x.id == pid) = true
    · rw [if_pos hx]
      rw [List.find?_cons_of_pos]
      · rw [List.find?_cons_of_pos]
        · rfl
        · exact hx
      · exact hx
    · rw [if_neg hx]
      rw [List.find?_cons_of_neg]
      · rw [List.find?_cons_of_neg]
        · exact ih
        · exact hx
      · exact hx

/-- Unfolding of `adjust_stock` for a valid action on an existing part. -/
theorem adjust_stock_eq_of_found (db : DB) (pid : Nat) (q : Int) (a u r t : String)
    (p : Part) (ha : a = "IN" ∨ a = "OUT") (hp : findPart db pid = some p) :
    adjust_stock db pid q a u r t =
      if (if a = "IN" then p.current_qty + q else p.current_qty - q) < 0 then
        .error .belowZero
      else
        .ok { db with
          parts := db.parts.map fun x =>
            if x.id == pid then
              { x with current_qty :=
                  if a = "IN" then p.current_qty + q else p.current_qty - q }
            else x,
          txns := db.txns ++
            [{ id := db.next_txn_id, part_id := pid, ts := t, user := u,
               action := a, quantity := q, remarks := r }],
          next_txn_id := db.next_txn_id + 1 } := by
  have hna : ¬(a ≠ "IN" ∧ a ≠ "OUT") := by
    rcases ha with h | h <;> simp [h]
  unfold adjust_stock
  rw [if_neg hna]
  unfold findPart at hp
  rw [hp]

/-- A valid adjustment on an existing part whose computed new quantity is
non-negative succeeds, sets the part's quantity to that value, and appends
exactly one ledger row carrying the given action and quantity. -/
theorem adjust_succeeds (db : DB) (pid : Nat) (q nq : Int) (a u r t : String)
    (p : Part) (ha : a = "IN" ∨ a = "OUT") (hp : findPart db pid = some p)
    (hnq : nq = if a = "IN" then p.current_qty + q else p.current_qty - q)
    (hnn : 0 ≤ nq) :
    ∃ db', adjust_stock db pid q a u r t = .ok db' ∧
      findPart db' pid = some { p with current_qty := nq } ∧
      db'.txns = db.txns ++
        [{ id := db.next_txn_id, part_id := pid, ts := t, user := u,
           action := a, quantity := q, remarks := r }] := by
  subst hnq
  have h := adjust_stock_eq_of_found db pid q a u r t p ha hp
  rw [if_neg (not_lt.mpr hnn)] at h
  refine ⟨_, h, ?_, rfl⟩
  show (db.parts.map fun x =>
      if x.id == pid then
        { x with current_qty :=
            if a = "IN" then p.current_qty + q else p.current_qty - q }
      else x).find? (fun x => x.id == pid) = _
  rw [find?_map_setQty]
  unfold findPart at hp
  rw [hp]
  rfl

/-! ### The claims -/

/-- Claim C1: for an existing part (with the documented non-negative stock)
and a positive quantity, an IN adjustment succeeds and increases the part's
current quantity by exactly that quantity, and an OUT adjustment with
quantity at most the current stock succeeds and decreases it by exactly that
quantity; in both cases exactly one new ledger row is appended, carrying
that direction and that quantity. -/
theorem C1_adjust_in_out_delta (db : DB) (pid : Nat) (q : Int) (u r t : String)
    (p : Part) (hp : findPart db pid = some p) (hq : 0 < q)
    (h0 : 0 ≤ p.current_qty) :
    (∃ db', adjust_stock db pid q "IN" u r t = .ok db' ∧
      findPart db' pid = some { p with current_qty := p.current_qty + q } ∧
      db'.txns = db.txns ++
        [{ id := db.next_txn_id, part_id := pid, ts := t, user := u,
           action := "IN", quantity := q, remarks := r }]) ∧
    (q ≤ p.current_qty →
      ∃ db', adjust_stock db pid q "OUT" u r t = .ok db' ∧
        findPart db' pid = some { p with current_qty := p.current_qty - q } ∧
        db'.txns = db.txns ++
          [{ id := db.next_txn_id, part_id := pid, ts := t, user := u,
             action := "OUT", quantity := q, remarks := r }]) := by
  constructor
  · exact adjust_succeeds db pid q (p.current_qty + q) "IN" u r t p (Or.inl rfl) hp
      (by rw [if_pos rfl]) (by omega)
  · intro hle
    exact adjust_succeeds db pid q (p.current_qty - q) "OUT" u r t p (Or.inr rfl) hp
      (by rw [if_neg (by decide)]) (by omega)

/-- Witness for C1 at `exDB` (stock 5), quantity 3. -/
theorem C1_witness :
    (findPart exDB 1 = some exPart ∧ (0 : Int) < 3 ∧ 0 ≤ exPart.current_qty ∧
      (3 : Int) ≤ exPart.current_qty) ∧
    (∃ db', adjust_stock exDB 1 3 "IN" "u" "r" "t" = .ok db' ∧
      findPart db' 1 = some { exPart with current_qty := exPart.current_qty + 3 } ∧
      db'.txns = exDB.txns ++
        [{ id := exDB.next_txn_id, part_id := 1, ts := "t", user := "u",
           action := "IN", quantity := 3, remarks := "r" }]) ∧
    (∃ db', adjust_stock exDB 1 3 "OUT" "u" "r" "t" = .ok db' ∧
      findPart db' 1 = some { exPart with current_qty := exPart.current_qty - 3 } ∧
      db'.txns = exDB.txns ++
        [{ id := exDB.next_txn_id, part_id := 1, ts := "t", user := "u",
           action := "OUT", quantity := 3, remarks := "r" }]) :=
  ⟨⟨rfl, by decide, by decide, by decide⟩,
   (C1_adjust_in_out_delta exDB 1 3 "u" "r" "t" exPart rfl (by decide) (by decide)).1,
   (C1_adjust_in_out_delta exDB 1 3 "u" "r" "t" exPart rfl (by decide) (by decide)).2
     (by decide)⟩

/-- Claim C2: an OUT adjustment on an existing part with quantity strictly
greater than the current stock fails with the insufficient-stock error
(`ValueError("Cannot go below zero stock")`, the specification's
InvalidOperation) and leaves the connection state — part quantities and the
entire ledger — unchanged. -/
theorem C2_adjust_out_insufficient (db : DB) (pid : Nat) (q : Int)
    (u r t : String) (p : Part) (hp : findPart db pid = some p)
    (hlt : p.current_qty < q) :
    adjust_stock db pid q "OUT" u r t = .error .belowZero ∧
    DB.after db (adjust_stock db pid q "OUT" u r t) = db := by
  have h := adjust_stock_eq_of_found db pid q "OUT" u r t p (Or.inr rfl) hp
  rw [show (if ("OUT" : String) = "IN" then p.current_qty + q else p.current_qty - q)
      = p.current_qty - q from if_neg (by decide)] at h
  rw [if_pos (by omega)] at h
  exact ⟨h, by rw [h]; rfl⟩

/-- Witness for C2: OUT 7 against stock 5. -/
theorem C2_witness :
    (findPart exDB 1 = some exPart ∧ exPart.current_qty < 7) ∧
    (adjust_stock exDB 1 7 "OUT" "u" "r" "t" = .error .belowZero ∧
     DB.after exDB (adjust_stock exDB 1 7 "OUT" "u" "r" "t") = exDB) :=
  ⟨⟨rfl, by decide⟩,
   C2_adjust_out_insufficient exDB 1 7 "u" "r" "t" exPart rfl (by decide)⟩

/-- Claim C3: `adjust_stock` fails with the part-not-found error
(`ValueError("Part not found")`, the specification's NotFound) when the part
id matches no stored part and the action is valid, and fails with the
bad-action error (`ValueError("Action must be IN or OUT")`, the
specification's InvalidOperation) whenever the action is neither IN nor
OUT; in either case the connection state is unchanged. -/
theorem C3_adjust_notfound_badaction (db : DB) (pid : Nat) (q : Int)
    (a u r t : String) :
    ((a = "IN" ∨ a = "OUT") → findPart db pid = none →
      adjust_stock db pid q a u r t = .error .partNotFound ∧
      DB.after db (adjust_stock db pid q a u r t) = db) ∧
    (a ≠ "IN" → a ≠ "OUT" →
      adjust_stock db pid q a u r t = .error .badAction ∧
      DB.after db (adjust_stock db pid q a u r t) = db) := by
  constructor
  · intro ha hn
    have hna : ¬(a ≠ "IN" ∧ a ≠ "OUT") := by
      rcases ha with h | h <;> simp [h]
    have h : adjust_stock db pid q a u r t = .error .partNotFound := by
      unfold adjust_stock
      rw [if_neg hna]
      unfold findPart at hn
      rw [hn]
    exact ⟨h, by rw [h]; rfl⟩
  · intro h1 h2
    have h : adjust_stock db pid q a u r t = .error .badAction := by
      unfold adjust_stock
      rw [if_pos ⟨h1, h2⟩]
    exact ⟨h, by rw [h]; rfl⟩

/-- Witness for C3: a missing part id on an empty catalog, and an invalid
action string on `exDB`. -/
theorem C3_witness :
    (findPart DB.empty 1 = none) ∧
    (adjust_stock DB.empty 1 5 "IN" "u" "r" "t" = .error .partNotFound ∧
     DB.after DB.empty (adjust_stock DB.empty 1 5 "IN" "u" "r" "t") = DB.empty) ∧
    (adjust_stock exDB 1 5 "FOO" "u" "r" "t" = .error .badAction ∧
     DB.after exDB (adjust_stock exDB 1 5 "FOO" "u" "r" "t") = exDB) :=
  ⟨rfl,
   (C3_adjust_notfound_badaction DB.empty 1 5 "IN" "u" "r" "t").1 (Or.inl rfl) rfl,
   (C3_adjust_notfound_badaction exDB 1 5 "FOO" "u" "r" "t").2 (by decide) (by decide)⟩

/-- Claim C4, evaluated at the failing input: deleting part 1 of `delDB`
removes the part row, and the ledger query (`fetch_transactions`, an inner
join) afterwards returns nothing for it, and deleting a nonexistent id is a
no-op — but the transaction row referencing part 1 is NOT removed: it is
still stored, orphaned, because the `ON DELETE CASCADE` declared in the
schema never runs (`get_conn` never issues `PRAGMA foreign_keys=ON`). -/
theorem C4_delete_leaves_orphan_txn :
    (delete_part delDB 1).parts = [] ∧
    (delete_part delDB 1).txns = [delTxn] ∧
    fetch_transactions (delete_part delDB 1) 200 = [] ∧
    delete_part DB.empty 7 = DB.empty :=
  ⟨rfl, rfl, rfl, rfl⟩

/-- Claim C5: inserting a part whose part number collides with the one part
already carrying it fails with the UNIQUE-constraint error (the
specification's DuplicateKey) and leaves the catalog unchanged, still
holding exactly one part with that part number. -/
theorem C5_insert_duplicate (db : DB) (n d m s : String) (mq cq : Int)
    (loc : String)
    (h : (db.parts.countP fun p => p.part_number == n) = 1) :
    insert_part db n d m s mq cq loc = .error .uniqueViolation ∧
    DB.after db (insert_part db n d m s mq cq loc) = db ∧
    ((DB.after db (insert_part db n d m s mq cq loc)).parts.countP
      fun p => p.part_number == n) = 1 := by
  have hany : db.parts.any (fun p => p.part_number == n) = true := by
    rw [List.any_eq_true]
    have hpos : 0 < db.parts.countP fun p => p.part_number == n := by omega
    obtain ⟨x, hx, hpx⟩ := List.countP_pos_iff.mp hpos
    exact ⟨x, hx, hpx⟩
  have he : insert_part db n d m s mq cq loc = .error .uniqueViolation := by
    unfold insert_part
    rw [if_pos hany]
  refine ⟨he, by rw [he]; rfl, ?_⟩
  rw [he]
  exact h

/-- Witness for C5: re-inserting part number "abc" into `exDB`. -/
theorem C5_witness :
    ((exDB.parts.countP fun p => p.part_number == "abc") = 1) ∧
    (insert_part exDB "abc" "d" "m" "s" 0 0 "l" = .error .uniqueViolation ∧
     DB.after exDB (insert_part exDB "abc" "d" "m" "s" 0 0 "l") = exDB ∧
     ((DB.after exDB (insert_part exDB "abc" "d" "m" "s" 0 0 "l")).parts.countP
       fun p => p.part_number == "abc") = 1) :=
  ⟨by decide, C5_insert_duplicate exDB "abc" "d" "m" "s" 0 0 "l" (by decide)⟩

/-- Claim C6 counterexample: `insert_part` with an empty part number does
not fail — it succeeds and stores the part (the empty string satisfies
`NOT NULL`, and no validation exists in the data-access layer). -/
theorem C6_cex_insert_empty_pn_succeeds :
    insert_part DB.empty "" "" "" "" 0 0 "" =
      .ok { parts := [{ id := 1, part_number := "", description := "",
                        machine_type := "", supplier := "", min_qty := 0,
                        current_qty := 0, location := "" }],
            txns := [], next_part_id := 2, next_txn_id := 1 } := rfl

/-- Claim C6 as amended: `insert_part` performs no validation of the part
number; when no stored part has the empty part number, inserting a part
with the empty part number succeeds and stores it (the UI form merely skips
submission of blank part numbers, raising no error). -/
theorem C6_insert_empty_pn_no_validation (db : DB) (d m s : String)
    (mq cq : Int) (loc : String) (h : ∀ p ∈ db.parts, p.part_number ≠ "") :
    insert_part db "" d m s mq cq loc =
      .ok { db with
        parts := db.parts ++
          [{ id := db.next_part_id, part_number := "", description := d,
             machine_type := m, supplier := s, min_qty := mq,
             current_qty := cq, location := loc }],
        next_part_id := db.next_part_id + 1 } := by
  have hany : db.parts.any (fun p => p.part_number == "") = false := by
    rw [List.any_eq_false]
    intro x hx
    simpa using h x hx
  unfold insert_part
  rw [if_neg (by simp [hany])]

/-- Witness for C6 at the empty catalog. -/
theorem C6_witness :
    (∀ p ∈ DB.empty.parts, p.part_number ≠ "") ∧
    insert_part DB.empty "" "x" "y" "z" 1 2 "w" =
      .ok { DB.empty with
        parts := DB.empty.parts ++
          [{ id := DB.empty.next_part_id, part_number := "", description := "x",
             machine_type := "y", supplier := "z", min_qty := 1,
             current_qty := 2, location := "w" }],
        next_part_id := DB.empty.next_part_id + 1 } :=
  ⟨by simp [DB.empty],
   C6_insert_empty_pn_no_validation DB.empty "x" "y" "z" 1 2 "w"
     (by simp [DB.empty])⟩

/-- Claim C7 counterexample: `update_part` on an id that matches no part
does not fail with any error — it succeeds as a silent no-op. -/
theorem C7_cex_update_missing_is_noop :
    update_part DB.empty 1 "x" "" "" "" 0 0 "" = .ok DB.empty := rfl

/-- Claim C7 as amended: `update_part` on an id that matches no stored part
silently succeeds as a no-op — the `UPDATE` touches zero rows, no NotFound
(or any other error) is raised, and the catalog is unchanged. -/
theorem C7_update_missing_noop (db : DB) (pid : Nat) (n d m s : String)
    (mq cq : Int) (loc : String) (h : ∀ p ∈ db.parts, p.id ≠ pid) :
    update_part db pid n d m s mq cq loc = .ok db := by
  have hany : db.parts.any (fun p => p.id == pid) = false := by
    rw [List.any_eq_false]
    intro x hx
    simpa using h x hx
  unfold update_part
  rw [if_neg (by simp [hany])]

/-- Witness for C7 at the empty catalog. -/
theorem C7_witness :
    (∀ p ∈ DB.empty.parts, p.id ≠ 1) ∧
    update_part DB.empty 1 "n" "d" "m" "s" 0 0 "l" = .ok DB.empty :=
  ⟨by simp [DB.empty],
   C7_update_missing_noop DB.empty 1 "n" "d" "m" "s" 0 0 "l"
     (by simp [DB.empty])⟩

/-- Claim C8 counterexample: the part number (and every other searchable
field) of the one part of `exDB` is "abc", yet searching for "ABC" returns
that part, although "ABC" is not a contiguous substring of "abc" (SQLite
`LIKE` is ASCII-case-insensitive). -/
theorem C8_cex_search_case_insensitive :
    fetch_parts exDB "ABC" = [exPart] ∧
    hasSub "ABC".data "abc".data = false ∧
    hasSub "ABC".data "loc".data = false := by decide

/-- Claim C8 as amended: for a query containing no SQL LIKE wildcard
(`%` or `_`), `fetch_parts` returns exactly the parts for which the query
is an ASCII-case-insensitive contiguous substring of the part number,
description, machine type or supplier, ordered by part number ascending
(queries containing `%` or `_` follow LIKE wildcard semantics instead);
the empty query returns all parts. -/
theorem C8_search_semantics (db : DB) (q : String)
    (hq : ∀ a ∈ q.data, a ≠ '%' ∧ a ≠ '_') :
    (fetch_parts db q).Perm (db.parts.filter fun p =>
      hasSub (q.data.map lowerAscii) (p.part_number.data.map lowerAscii) ||
      hasSub (q.data.map lowerAscii) (p.description.data.map lowerAscii) ||
      hasSub (q.data.map lowerAscii) (p.machine_type.data.map lowerAscii) ||
      hasSub (q.data.map lowerAscii) (p.supplier.data.map lowerAscii)) ∧
    (fetch_parts db q).Sorted pnLE ∧
    (fetch_parts db "").Perm db.parts := by
  refine ⟨?_, List.sorted_insertionSort pnLE _, ?_⟩
  · have hcong : db.parts.filter (likeAny q) = db.parts.filter (fun p =>
        hasSub (q.data.map lowerAscii) (p.part_number.data.map lowerAscii) ||
        hasSub (q.data.map lowerAscii) (p.description.data.map lowerAscii) ||
        hasSub (q.data.map lowerAscii) (p.machine_type.data.map lowerAscii) ||
        hasSub (q.data.map lowerAscii) (p.supplier.data.map lowerAscii)) :=
      List.filter_congr fun x _ => by
        simp only [likeAny, likeStr_eq_hasSub q hq]
    unfold fetch_parts
    rw [hcong]
    exact List.perm_insertionSort pnLE _
  · unfold fetch_parts
    rw [List.filter_eq_self.mpr fun a _ => likeAny_empty a]
    exact List.perm_insertionSort pnLE _

/-- Witness for C8: searching `exDB` for the wildcard-free query "b". -/
theorem C8_witness :
    (∀ a ∈ "b".data, a ≠ '%' ∧ a ≠ '_') ∧
    ((fetch_parts exDB "b").Perm (exDB.parts.filter fun p =>
      hasSub ("b".data.map lowerAscii) (p.part_number.data.map lowerAscii) ||
      hasSub ("b".data.map lowerAscii) (p.description.data.map lowerAscii) ||
      hasSub ("b".data.map lowerAscii) (p.machine_type.data.map lowerAscii) ||
      hasSub ("b".data.map lowerAscii) (p.supplier.data.map lowerAscii)) ∧
    (fetch_parts exDB "b").Sorted pnLE ∧
    (fetch_parts exDB "").Perm exDB.parts) :=
  ⟨by decide, C8_search_semantics exDB "b" (by decide)⟩

/-- Claim C9: `adjust_stock` never validates the sign of its quantity: on an
existing part with a valid direction and ANY integer quantity — zero or
negative included — it fails iff the computed new quantity (current + qty
for IN, current − qty for OUT) is negative, and on success appends a ledger
row whose quantity field is exactly the given quantity, even when that value
is zero or negative. -/
theorem C9_adjust_sign_unchecked (db : DB) (pid : Nat) (q : Int)
    (a u r t : String) (p : Part) (ha : a = "IN" ∨ a = "OUT")
    (hp : findPart db pid = some p) :
    ((if a = "IN" then p.current_qty + q else p.current_qty - q) < 0 →
      adjust_stock db pid q a u r t = .error .belowZero) ∧
    (0 ≤ (if a = "IN" then p.current_qty + q else p.current_qty - q) →
      ∃ db', adjust_stock db pid q a u r t = .ok db' ∧
        findPart db' pid = some { p with current_qty :=
          if a = "IN" then p.current_qty + q else p.current_qty - q } ∧
        db'.txns = db.txns ++
          [{ id := db.next_txn_id, part_id := pid, ts := t, user := u,
             action := a, quantity := q, remarks := r }]) := by
  constructor
  · intro hneg
    have h := adjust_stock_eq_of_found db pid q a u r t p ha hp
    rw [if_pos hneg] at h
    exact h
  · intro hpos
    exact adjust_succeeds db pid q _ a u r t p ha hp rfl hpos

/-- Witness for C9: OUT with quantity −5 against stock 5 succeeds, raises
the stock to 10, and records a ledger row with quantity −5. -/
theorem C9_witness :
    (0 : Int) ≤ (if ("OUT" : String) = "IN" then exPart.current_qty + (-5)
                 else exPart.current_qty - (-5)) ∧
    (∃ db', adjust_stock exDB 1 (-5) "OUT" "u" "r" "t" = .ok db' ∧
      findPart db' 1 = some { exPart with current_qty :=
        if ("OUT" : String) = "IN" then exPart.current_qty + (-5)
        else exPart.current_qty - (-5) } ∧
      db'.txns = exDB.txns ++
        [{ id := exDB.next_txn_id, part_id := 1, ts := "t", user := "u",
           action := "OUT", quantity := -5, remarks := "r" }]) :=
  ⟨by decide,
   (C9_adjust_sign_unchecked exDB 1 (-5) "OUT" "u" "r" "t" exPart
      (Or.inr rfl) rfl).2 (by decide)⟩

/-- Claim C10: a successful `adjust_stock` modifies only the `current_qty`
of parts with the targeted id — every part row keeps its id, part number,
description, machine type, supplier, minimum quantity and location, every
part whose id differs from the target is entirely unchanged, the
pre-existing ledger is preserved with exactly one row appended, and the
part-id counter is untouched. -/
theorem C10_adjust_frame (db : DB) (pid : Nat) (q : Int) (a u r t : String)
    (db' : DB) (h : adjust_stock db pid q a u r t = .ok db') :
    (∃ nq, db'.parts = db.parts.map fun x =>
        if x.id == pid then { x with current_qty := nq } else x) ∧
    (∀ x ∈ db.parts, (x.id == pid) = false → x ∈ db'.parts) ∧
    (∃ row, db'.txns = db.txns ++ [row]) ∧
    db'.next_part_id = db.next_part_id := by
  by_cases hact : a ≠ "IN" ∧ a ≠ "OUT"
  · have he : adjust_stock db pid q a u r t = .error .badAction := by
      unfold adjust_stock
      rw [if_pos hact]
    rw [he] at h
    exact Except.noConfusion h
  · have ha : a = "IN" ∨ a = "OUT" := by
      rcases not_and_or.mp hact with h' | h'
      · exact Or.inl (not_not.mp h')
      · exact Or.inr (not_not.mp h')
    cases hf : findPart db pid with
    | none =>
      have he : adjust_stock db pid q a u r t = .error .partNotFound := by
        unfold adjust_stock
        rw [if_neg hact]
        unfold findPart at hf
        rw [hf]
      rw [he] at h
      exact Except.noConfusion h
    | some p =>
      rw [adjust_stock_eq_of_found db pid q a u r t p ha hf] at h
      by_cases hneg : (if a = "IN" then p.current_qty + q else p.current_qty - q) < 0
      · rw [if_pos hneg] at h
        exact Except.noConfusion h
      · rw [if_neg hneg] at h
        injection h with h
        subst h
        refine ⟨⟨_, rfl⟩, ?_, ⟨_, rfl⟩, rfl⟩
        intro x hx hxid
        refine List.mem_map.mpr ⟨x, hx, ?_⟩
        rw [if_neg (by simp [hxid])]

/-- Witness for C10: the successful OUT 2 adjustment from `exDB` to
`exDB'`. -/
theorem C10_witness :
    adjust_stock exDB 1 2 "OUT" "u" "r" "t" = .ok exDB' ∧
    ((∃ nq, exDB'.parts = exDB.parts.map fun x =>
        if x.id == 1 then { x with current_qty := nq } else x) ∧
     (∀ x ∈ exDB.parts, (x.id == 1) = false → x ∈ exDB'.parts) ∧
     (∃ row, exDB'.txns = exDB.txns ++ [row]) ∧
     exDB'.next_part_id = exDB.next_part_id) :=
  ⟨rfl, C10_adjust_frame exDB 1 2 "OUT" "u" "r" "t" exDB' rfl⟩

end Inventory
